import Mathlib

/-!
# Dragon-Game: the round state machine of `src/App-backup2.js`

The React component `App` keeps seven state variables and changes them in four
places: the frame callback `gameLoop`, the collision effect, `handleTouch` and
`resetGame`.  Each of them is embedded here as a function on `AppState`.

Modelling decisions.

* JavaScript numbers are taken as exact rationals (`ℚ`): rounding of doubles is
  not modelled.
* `SCREEN_WIDTH` and `SCREEN_HEIGHT` come from `Dimensions.get('window')` at run
  time; they are parameters of every definition that reads them.
* The calls of `Math.random()` in `gameLoop` are inputs of the tick (`Draws`).
* A functional state update `setX(prev => ...)` is applied to the state at the
  place where the source calls it, one handler at a time.  The values a handler
  reads from its closure (`eggs`, `dragonX`, `dragonSize`, `gameOver` in the
  collision effect) are the ones of the state the handler starts from.
* `animationRef.current` with `requestAnimationFrame` / `cancelAnimationFrame`
  is kept as one flag, `frameRequested`: the handle held in the ref is scheduled
  with the host.
* `e !== egg` compares object identity in the source; eggs are compared by their
  fields here.  The catch test reads only the fields, so the eggs removed and the
  number of catches are the same.
-/

namespace DragonGame

/-! ## Constants (lines 6-8) -/

def INITIAL_DRAGON_SIZE : ℚ := 64

def EGG_SIZE : ℚ := 32

def GAME_DURATION : ℚ := 60 * 1000

/-! ## Data -/

/-- An egg object `{ x, y, speed }` (lines 88-92). -/
structure Egg where
  x : ℚ
  y : ℚ
  speed : ℚ
deriving DecidableEq

/-- The `useState` variables of `App` (lines 52-58) and the frame handle (line 70). -/
structure AppState where
  dragonX : ℚ
  dragonSize : ℚ
  eggs : List Egg
  score : ℕ
  gameOver : Bool
  message : String
  timeLeft : ℚ
  frameRequested : Bool
deriving DecidableEq

/-- The three results of `Math.random()` a run of `gameLoop` may use, in the order of
the calls: the spawn test (line 87), the horizontal position (line 89), the speed
(line 91). -/
structure Draws where
  spawn : ℚ
  pos : ℚ
  speed : ℚ

/-- The `useState` defaults (lines 52-58), with the frame requested by the mount
effect (line 102). -/
def initialState (SCREEN_WIDTH : ℚ) : AppState :=
  { dragonX := SCREEN_WIDTH / 2
    dragonSize := INITIAL_DRAGON_SIZE
    eggs := []
    score := 0
    gameOver := false
    message := ""
    timeLeft := GAME_DURATION
    frameRequested := true }

/-! ## Operations -/

/-- The function `endGame` (lines 130-136): the flag, the message, and the cancelled
frame. -/
def endGame (msg : String) (s : AppState) : AppState :=
  { s with gameOver := true, message := msg, frameRequested := false }

/-- The `setTimeLeft` updater of `gameLoop` (lines 73-79). -/
def tickTime (s : AppState) : AppState :=
  if s.timeLeft ≤ 0 then
    { endGame "YOU LOST!!!" s with timeLeft := 0 }
  else
    { s with timeLeft := s.timeLeft - 16 }

/-- The `map` callback of line 82-84: the egg one frame later. -/
def fall (egg : Egg) : Egg :=
  { egg with y := egg.y + egg.speed }

/-- The egg pushed at lines 88-92. -/
def spawned (SCREEN_WIDTH : ℚ) (d : Draws) : Egg :=
  { x := d.pos * (SCREEN_WIDTH - EGG_SIZE), y := -EGG_SIZE, speed := d.speed * 4 + 3 }

/-- The `setEggs` updater of `gameLoop` (lines 81-96). -/
def tickEggs (SCREEN_WIDTH SCREEN_HEIGHT : ℚ) (d : Draws) (prevEggs : List Egg) : List Egg :=
  let newEggs := (prevEggs.map fall).filter (fun egg => decide (egg.y < SCREEN_HEIGHT))
  if d.spawn < 0.01 then newEggs ++ [spawned SCREEN_WIDTH d] else newEggs

/-- One run of `gameLoop` (lines 72-99): a tick. -/
def gameLoop (SCREEN_WIDTH SCREEN_HEIGHT : ℚ) (d : Draws) (s : AppState) : AppState :=
  let s1 := tickTime s
  let s2 := { s1 with eggs := tickEggs SCREEN_WIDTH SCREEN_HEIGHT d s1.eggs }
  { s2 with frameRequested := true }

/-- The catch test of lines 115-118. -/
def catches (SCREEN_HEIGHT dragonX dragonSize : ℚ) (egg : Egg) : Bool :=
  decide (|dragonX - (egg.x + EGG_SIZE / 2)| < dragonSize / 2) &&
  decide (|SCREEN_HEIGHT - dragonSize / 2 - (egg.y + EGG_SIZE / 2)| < dragonSize / 2)

/-- The body of the `forEach` callback (lines 114-123) for one egg of the list the
effect closed over; `dragonX` and `dragonSize` are the closed-over values. -/
def catchStep (SCREEN_HEIGHT dragonX dragonSize : ℚ) (acc : AppState) (egg : Egg) : AppState :=
  if catches SCREEN_HEIGHT dragonX dragonSize egg then
    { acc with
      score := acc.score + 1
      dragonSize := acc.dragonSize * 1.1
      eggs := acc.eggs.filter (fun e => decide (e ≠ egg)) }
  else acc

/-- The collision effect (lines 111-128): a collision check. -/
def collisionCheck (SCREEN_HEIGHT : ℚ) (s : AppState) : AppState :=
  if s.gameOver then s
  else
    let s1 := s.eggs.foldl (catchStep SCREEN_HEIGHT s.dragonX s.dragonSize) s
    if s.dragonSize ≥ INITIAL_DRAGON_SIZE * 3 then endGame "YOU WON DUDE!" s1 else s1

/-- The handler `handleTouch` (lines 143-145), with `event.nativeEvent.locationX` as `locationX`. -/
def handleTouch (locationX : ℚ) (s : AppState) : AppState :=
  { s with dragonX := locationX }

/-- The handler `resetGame` (lines 147-156). -/
def resetGame (SCREEN_WIDTH : ℚ) (s : AppState) : AppState :=
  { s with
    dragonX := SCREEN_WIDTH / 2
    dragonSize := INITIAL_DRAGON_SIZE
    eggs := []
    score := 0
    gameOver := false
    message := ""
    timeLeft := GAME_DURATION
    frameRequested := true }

/-- The round states the program can be in: the initial one and every state that a
tick, a collision check, a touch or a reset leads to from one of them. -/
inductive Reachable (SCREEN_WIDTH SCREEN_HEIGHT : ℚ) : AppState → Prop
  | init : Reachable SCREEN_WIDTH SCREEN_HEIGHT (initialState SCREEN_WIDTH)
  | tick (d : Draws) {s : AppState} :
      Reachable SCREEN_WIDTH SCREEN_HEIGHT s →
      Reachable SCREEN_WIDTH SCREEN_HEIGHT (gameLoop SCREEN_WIDTH SCREEN_HEIGHT d s)
  | check {s : AppState} :
      Reachable SCREEN_WIDTH SCREEN_HEIGHT s →
      Reachable SCREEN_WIDTH SCREEN_HEIGHT (collisionCheck SCREEN_HEIGHT s)
  | touch (locationX : ℚ) {s : AppState} :
      Reachable SCREEN_WIDTH SCREEN_HEIGHT s →
      Reachable SCREEN_WIDTH SCREEN_HEIGHT (handleTouch locationX s)
  | reset {s : AppState} :
      Reachable SCREEN_WIDTH SCREEN_HEIGHT s →
      Reachable SCREEN_WIDTH SCREEN_HEIGHT (resetGame SCREEN_WIDTH s)

/-- Ticks applied one after the other, one `Draws` per tick. -/
def ticks (SCREEN_WIDTH SCREEN_HEIGHT : ℚ) (ds : List Draws) (s : AppState) : AppState :=
  ds.foldl (fun acc d => gameLoop SCREEN_WIDTH SCREEN_HEIGHT d acc) s

/-- A draw that spawns no egg (`Math.random()` gave `1/2` at line 87). -/
def noSpawn : Draws := { spawn := 1 / 2, pos := 0, speed := 0 }

/-! ## Scenarios -/

/-- A running round one catch before the threshold: score 11, size `64 * 1.1 ^ 11`
(about 182.6), and one egg whose centre is inside the square of the dragon. -/
def nearWin : AppState :=
  { dragonX := 100, dragonSize := 64 * (11 / 10) ^ 11,
    eggs := [{ x := 100, y := 750, speed := 3 }],
    score := 11, gameOver := false, message := "", timeLeft := 30000,
    frameRequested := true }

/-- A running round whose dragon has the size `64 * 1.1 ^ 12` (about 200.9). -/
def bigDragon : AppState :=
  { dragonX := 100, dragonSize := 64 * (11 / 10) ^ 12, eggs := [],
    score := 12, gameOver := false, message := "", timeLeft := 30000,
    frameRequested := true }

/-- A draw that spawns an egg: `Math.random()` gave 0 at line 87 and `1/2` at lines 89
and 91. -/
def spawnDraw : Draws := { spawn := 0, pos := 1 / 2, speed := 1 / 2 }

/-- The round (screen 400 x 800) after 3750 ticks that spawn nothing and a 3751st
tick that spawns an egg: lost, with the egg at the top edge and the next frame
requested. -/
def lostRound : AppState :=
  { dragonX := 200, dragonSize := 64, eggs := [{ x := 184, y := -32, speed := 5 }],
    score := 0, gameOver := true, message := "YOU LOST!!!", timeLeft := 0,
    frameRequested := true }

/-! ## Helper lemmas -/

section Helpers

variable (W H : ℚ)

/-- What the `forEach` of the collision effect does to an accumulated state, for any
list of eggs it runs over. -/
theorem foldl_catchStep (x z : ℚ) (l : List Egg) (acc : AppState) :
    (l.foldl (catchStep H x z) acc).score = acc.score + l.countP (catches H x z) ∧
    (l.foldl (catchStep H x z) acc).dragonSize
      = acc.dragonSize * (11 / 10) ^ l.countP (catches H x z) ∧
    (l.foldl (catchStep H x z) acc).eggs
      = acc.eggs.filter (fun e => decide (e ∉ l.filter (catches H x z))) ∧
    (l.foldl (catchStep H x z) acc).dragonX = acc.dragonX ∧
    (l.foldl (catchStep H x z) acc).gameOver = acc.gameOver ∧
    (l.foldl (catchStep H x z) acc).message = acc.message ∧
    (l.foldl (catchStep H x z) acc).timeLeft = acc.timeLeft ∧
    (l.foldl (catchStep H x z) acc).frameRequested = acc.frameRequested := by
  induction l generalizing acc with
  | nil => simp
  | cons g l ih =>
    rw [List.foldl_cons]
    obtain ⟨h1, h2, h3, h4, h5, h6, h7, h8⟩ := ih (catchStep H x z acc g)
    rw [h1, h2, h3, h4, h5, h6, h7, h8]
    by_cases hc : catches H x z g = true
    · have e1 : catchStep H x z acc g =
          { acc with
            score := acc.score + 1
            dragonSize := acc.dragonSize * 1.1
            eggs := acc.eggs.filter (fun e => decide (e ≠ g)) } := by
        simp [catchStep, hc]
      rw [e1, List.countP_cons_of_pos _ _ hc, List.filter_cons_of_pos hc]
      refine ⟨?_, ?_, ?_, rfl, rfl, rfl, rfl, rfl⟩
      · show acc.score + 1 + _ = _
        ring
      · show acc.dragonSize * 1.1 * _ = _
        rw [pow_succ]
        norm_num
        ring
      · show List.filter _ (List.filter _ acc.eggs) = _
        rw [List.filter_filter]
        apply List.filter_congr
        intro e _
        by_cases heg : e = g <;> simp [heg]
    · have hc' : catches H x z g = false := by simpa using hc
      have e1 : catchStep H x z acc g = acc := by simp [catchStep, hc']
      rw [e1, List.countP_cons_of_neg _ _ hc, List.filter_cons_of_neg hc]
      exact ⟨rfl, rfl, rfl, rfl, rfl, rfl, rfl, rfl⟩

/-- The eggs left by the `forEach` are the eggs that fail the catch test. -/
theorem filter_not_mem_caught (c : Egg → Bool) (l : List Egg) :
    l.filter (fun e => decide (e ∉ l.filter c)) = l.filter (fun e => !c e) := by
  apply List.filter_congr
  intro e he
  simp [List.mem_filter, he]

theorem gameLoop_timeLeft (d : Draws) (s : AppState) :
    (gameLoop W H d s).timeLeft = if s.timeLeft ≤ 0 then 0 else s.timeLeft - 16 := by
  unfold gameLoop tickTime
  split <;> rfl

theorem gameLoop_gameOver (d : Draws) (s : AppState) :
    (gameLoop W H d s).gameOver = if s.timeLeft ≤ 0 then true else s.gameOver := by
  unfold gameLoop tickTime
  split <;> rfl

theorem gameLoop_message (d : Draws) (s : AppState) :
    (gameLoop W H d s).message = if s.timeLeft ≤ 0 then "YOU LOST!!!" else s.message := by
  unfold gameLoop tickTime
  split <;> rfl

theorem gameLoop_eggs (d : Draws) (s : AppState) :
    (gameLoop W H d s).eggs = tickEggs W H d s.eggs := by
  unfold gameLoop tickTime
  split <;> rfl

/-- A collision check of a finished round returns at once. -/
theorem collisionCheck_of_gameOver (s : AppState) (h : s.gameOver = true) :
    collisionCheck H s = s := by
  simp [collisionCheck, h]

/-- Score, size and eggs after a collision check of a running round. -/
theorem collisionCheck_running (s : AppState) (h : s.gameOver = false) :
    (collisionCheck H s).score
      = s.score + s.eggs.countP (catches H s.dragonX s.dragonSize) ∧
    (collisionCheck H s).dragonSize
      = s.dragonSize * (11 / 10) ^ s.eggs.countP (catches H s.dragonX s.dragonSize) ∧
    (collisionCheck H s).eggs
      = s.eggs.filter (fun e => !catches H s.dragonX s.dragonSize e) ∧
    (collisionCheck H s).dragonX = s.dragonX ∧
    (collisionCheck H s).timeLeft = s.timeLeft := by
  obtain ⟨h1, h2, h3, h4, -, -, h7, -⟩ := foldl_catchStep H s.dragonX s.dragonSize s.eggs s
  rw [filter_not_mem_caught] at h3
  unfold collisionCheck
  simp only [h, Bool.false_eq_true, if_false]
  split
  · exact ⟨h1, h2, h3, h4, h7⟩
  · exact ⟨h1, h2, h3, h4, h7⟩

/-- The win test of a collision check reads the size the check started with. -/
theorem collisionCheck_outcome (s : AppState) (h : s.gameOver = false) :
    (192 ≤ s.dragonSize →
      (collisionCheck H s).gameOver = true ∧ (collisionCheck H s).message = "YOU WON DUDE!") ∧
    (s.dragonSize < 192 →
      (collisionCheck H s).gameOver = false ∧ (collisionCheck H s).message = s.message) := by
  obtain ⟨-, -, -, -, h5, h6, -, -⟩ := foldl_catchStep H s.dragonX s.dragonSize s.eggs s
  unfold collisionCheck
  simp only [h, Bool.false_eq_true, if_false, INITIAL_DRAGON_SIZE]
  constructor
  · intro hw
    rw [if_pos (by linarith)]
    exact ⟨rfl, rfl⟩
  · intro hl
    rw [if_neg (by intro hge; norm_num at hge; linarith)]
    exact ⟨by rw [h5, h], h6⟩

/-- Ticks while at least 16 ms per tick remain: each lowers the time by 16 and leaves
the game-over flag and the message alone. -/
theorem ticks_running (ds : List Draws) (s : AppState)
    (h : 16 * (ds.length : ℚ) ≤ s.timeLeft) :
    (ticks W H ds s).timeLeft = s.timeLeft - 16 * ds.length ∧
    (ticks W H ds s).gameOver = s.gameOver ∧
    (ticks W H ds s).message = s.message := by
  induction ds generalizing s with
  | nil => simp [ticks]
  | cons d ds ih =>
    have hlen : ((d :: ds).length : ℚ) = ds.length + 1 := by simp
    rw [hlen] at h
    have hn : (0 : ℚ) ≤ ds.length := Nat.cast_nonneg _
    have hpos : ¬ s.timeLeft ≤ 0 := by linarith
    have ht := gameLoop_timeLeft W H d s
    have hg := gameLoop_gameOver W H d s
    have hm := gameLoop_message W H d s
    rw [if_neg hpos] at ht hg hm
    obtain ⟨i1, i2, i3⟩ := ih (gameLoop W H d s) (by rw [ht]; linarith)
    have e : ticks W H (d :: ds) s = ticks W H ds (gameLoop W H d s) := rfl
    rw [e, i1, i2, i3, ht, hg, hm, hlen]
    exact ⟨by ring, rfl, rfl⟩

/-- The whole state after ticks that spawn nothing, from a state without eggs. -/
theorem ticks_noSpawn (n : ℕ) (s : AppState) (he : s.eggs = [])
    (hf : s.frameRequested = true) (h : 16 * (n : ℚ) ≤ s.timeLeft) :
    ticks W H (List.replicate n noSpawn) s = { s with timeLeft := s.timeLeft - 16 * n } := by
  induction n generalizing s with
  | zero => simp [ticks]
  | succ n ih =>
    have hpos : ¬ s.timeLeft ≤ 0 := by
      have hn : (0 : ℚ) ≤ n := Nat.cast_nonneg _
      push_cast at h
      linarith
    have e1 : gameLoop W H noSpawn s = { s with timeLeft := s.timeLeft - 16 } := by
      cases s
      simp only [gameLoop, tickTime, tickEggs, noSpawn] at *
      subst he hf
      rw [if_neg hpos]
      norm_num
    have e : ticks W H (List.replicate (n + 1) noSpawn) s
        = ticks W H (List.replicate n noSpawn) (gameLoop W H noSpawn s) := rfl
    have h16 : 16 * (n : ℚ) ≤ s.timeLeft - 16 := by
      push_cast at h
      linarith
    rw [e, e1, ih { s with timeLeft := s.timeLeft - 16 } he hf h16]
    cases s
    simp only [AppState.mk.injEq, true_and, and_true]
    push_cast
    ring

theorem Reachable.after_ticks {s : AppState} (ds : List Draws) (h : Reachable W H s) :
    Reachable W H (ticks W H ds s) := by
  induction ds generalizing s with
  | nil => exact h
  | cons d ds ih => exact ih (Reachable.tick d h)

end Helpers

/-! ## Theorems -/

/-- C5: `resetGame` yields exactly the initial state from every state: dragon x is
`SCREEN_WIDTH / 2`, dragon size 64, no eggs, score 0, game-over flag false, empty
message, remaining time 60000; so reset is idempotent and its result does not
depend on the state it is applied to. -/
theorem resetGame_initial (SCREEN_WIDTH : ℚ) (s t : AppState) :
    resetGame SCREEN_WIDTH s = initialState SCREEN_WIDTH ∧
    (resetGame SCREEN_WIDTH s).dragonX = SCREEN_WIDTH / 2 ∧
    (resetGame SCREEN_WIDTH s).dragonSize = 64 ∧
    (resetGame SCREEN_WIDTH s).eggs = [] ∧
    (resetGame SCREEN_WIDTH s).score = 0 ∧
    (resetGame SCREEN_WIDTH s).gameOver = false ∧
    (resetGame SCREEN_WIDTH s).message = "" ∧
    (resetGame SCREEN_WIDTH s).timeLeft = 60000 ∧
    resetGame SCREEN_WIDTH (resetGame SCREEN_WIDTH s) = resetGame SCREEN_WIDTH s ∧
    resetGame SCREEN_WIDTH s = resetGame SCREEN_WIDTH t := by
  refine ⟨rfl, rfl, rfl, rfl, rfl, rfl, rfl, ?_, rfl, rfl⟩
  show GAME_DURATION = 60000
  norm_num [GAME_DURATION]

/-- C2, as stated, fails: the check that processes the 12th catch leaves the size at
`64 * 1.1 ^ 12 >= 192` and the round still running, with an empty message. -/
theorem collisionCheck_win_test_reads_old_size :
    nearWin.gameOver = false ∧
    (3 : ℚ) * 64 ≤ (collisionCheck 800 nearWin).dragonSize ∧
    (collisionCheck 800 nearWin).gameOver = false ∧
    (collisionCheck 800 nearWin).message = "" := by
  have hc : catches 800 100 (64 * (11 / 10) ^ 11) { x := 100, y := 750, speed := 3 } = true := by
    simp only [catches, EGG_SIZE, Bool.and_eq_true, decide_eq_true_eq, abs_lt]
    norm_num
  obtain ⟨-, h2, -⟩ := collisionCheck_running 800 nearWin rfl
  obtain ⟨-, h4⟩ := collisionCheck_outcome 800 nearWin rfl
  have hsmall : nearWin.dragonSize < 192 := by norm_num [nearWin]
  refine ⟨rfl, ?_, (h4 hsmall).1, (h4 hsmall).2⟩
  rw [h2]
  simp only [nearWin, List.countP_cons, List.countP_nil, hc]
  norm_num

/-- C2 (amended): in a running round a collision check ends the round with
'YOU WON DUDE!' exactly when the dragon size at the start of the check is at least
`3 * 64`, whatever the remaining time (which it leaves alone); and when the size
after a check is at least `3 * 64`, the following check has ended the round with
that message. -/
theorem collisionCheck_won (SCREEN_HEIGHT : ℚ) (s : AppState) (hrun : s.gameOver = false) :
    (3 * 64 ≤ s.dragonSize →
      (collisionCheck SCREEN_HEIGHT s).gameOver = true ∧
      (collisionCheck SCREEN_HEIGHT s).message = "YOU WON DUDE!" ∧
      (collisionCheck SCREEN_HEIGHT s).timeLeft = s.timeLeft) ∧
    (s.dragonSize < 3 * 64 → (collisionCheck SCREEN_HEIGHT s).gameOver = false) ∧
    (3 * 64 ≤ (collisionCheck SCREEN_HEIGHT s).dragonSize →
      (collisionCheck SCREEN_HEIGHT (collisionCheck SCREEN_HEIGHT s)).gameOver = true ∧
      (collisionCheck SCREEN_HEIGHT (collisionCheck SCREEN_HEIGHT s)).message
        = "YOU WON DUDE!") := by
  obtain ⟨hw, hl⟩ := collisionCheck_outcome SCREEN_HEIGHT s hrun
  obtain ⟨-, -, -, -, ht⟩ := collisionCheck_running SCREEN_HEIGHT s hrun
  refine ⟨fun h => ⟨(hw (by linarith)).1, (hw (by linarith)).2, ht⟩,
    fun h => (hl (by linarith)).1, fun h => ?_⟩
  by_cases hs : 192 ≤ s.dragonSize
  · rw [collisionCheck_of_gameOver SCREEN_HEIGHT _ (hw hs).1]
    exact hw hs
  · have hrun' := (hl (lt_of_not_le hs)).1
    exact (collisionCheck_outcome SCREEN_HEIGHT _ hrun').1 (by linarith)

/-- A check that starts with size `64 * 1.1 ^ 12` ends the round as won. -/
theorem collisionCheck_won_witness :
    (collisionCheck 800 bigDragon).gameOver = true ∧
    (collisionCheck 800 bigDragon).message = "YOU WON DUDE!" ∧
    (collisionCheck 800 bigDragon).timeLeft = 30000 :=
  (collisionCheck_won 800 bigDragon rfl).1 (by norm_num [bigDragon])

/-- C3, as stated, fails: after 3750 ticks from the initial state the remaining time
is 0 and the round is still running. -/
theorem running_after_3750_ticks :
    (ticks 400 800 (List.replicate 3750 noSpawn) (initialState 400)).timeLeft = 0 ∧
    (ticks 400 800 (List.replicate 3750 noSpawn) (initialState 400)).gameOver = false ∧
    (ticks 400 800 (List.replicate 3750 noSpawn) (initialState 400)).message = "" := by
  obtain ⟨h1, h2, h3⟩ := ticks_running 400 800 (List.replicate 3750 noSpawn) (initialState 400)
    (by rw [List.length_replicate]; norm_num [initialState, GAME_DURATION])
  rw [h1, h2, h3, List.length_replicate]
  exact ⟨by norm_num [initialState, GAME_DURATION], rfl, rfl⟩

/-- C3 (amended): 3750 ticks from the initial state bring the remaining time to 0
with the round still running, and the next tick, the 3751st, makes the round
game-over with message 'YOU LOST!!!'. -/
theorem lost_on_tick_3751 (SCREEN_WIDTH SCREEN_HEIGHT : ℚ) (ds : List Draws)
    (hlen : ds.length = 3750) :
    (ticks SCREEN_WIDTH SCREEN_HEIGHT ds (initialState SCREEN_WIDTH)).timeLeft = 0 ∧
    (ticks SCREEN_WIDTH SCREEN_HEIGHT ds (initialState SCREEN_WIDTH)).gameOver = false ∧
    ∀ d : Draws,
      (gameLoop SCREEN_WIDTH SCREEN_HEIGHT d
        (ticks SCREEN_WIDTH SCREEN_HEIGHT ds (initialState SCREEN_WIDTH))).gameOver = true ∧
      (gameLoop SCREEN_WIDTH SCREEN_HEIGHT d
        (ticks SCREEN_WIDTH SCREEN_HEIGHT ds (initialState SCREEN_WIDTH))).message
          = "YOU LOST!!!" ∧
      (gameLoop SCREEN_WIDTH SCREEN_HEIGHT d
        (ticks SCREEN_WIDTH SCREEN_HEIGHT ds (initialState SCREEN_WIDTH))).timeLeft = 0 := by
  obtain ⟨h1, h2, -⟩ := ticks_running SCREEN_WIDTH SCREEN_HEIGHT ds (initialState SCREEN_WIDTH)
    (by rw [hlen]; norm_num [initialState, GAME_DURATION])
  have h0 : (ticks SCREEN_WIDTH SCREEN_HEIGHT ds (initialState SCREEN_WIDTH)).timeLeft = 0 := by
    rw [h1, hlen]
    norm_num [initialState, GAME_DURATION]
  refine ⟨h0, by rw [h2]; rfl, fun d => ?_⟩
  rw [gameLoop_gameOver, gameLoop_message, gameLoop_timeLeft, h0]
  simp

/-- With 3750 ticks that spawn nothing, the 3751st tick loses the round. -/
theorem lost_on_tick_3751_witness :
    (ticks 400 800 (List.replicate 3750 noSpawn) (initialState 400)).gameOver = false ∧
    (gameLoop 400 800 noSpawn
      (ticks 400 800 (List.replicate 3750 noSpawn) (initialState 400))).gameOver = true ∧
    (gameLoop 400 800 noSpawn
      (ticks 400 800 (List.replicate 3750 noSpawn) (initialState 400))).message
        = "YOU LOST!!!" :=
  have h := lost_on_tick_3751 400 800 (List.replicate 3750 noSpawn) (List.length_replicate _ _)
  ⟨h.2.1, (h.2.2 noSpawn).1, (h.2.2 noSpawn).2.1⟩

theorem lostRound_eq :
    lostRound = gameLoop 400 800 spawnDraw
      (ticks 400 800 (List.replicate 3750 noSpawn) (initialState 400)) := by
  rw [ticks_noSpawn 400 800 3750 (initialState 400) rfl rfl
    (by norm_num [initialState, GAME_DURATION])]
  simp only [lostRound, gameLoop, tickTime, tickEggs, endGame, spawned, spawnDraw, initialState,
    GAME_DURATION, INITIAL_DRAGON_SIZE, EGG_SIZE]
  norm_num

theorem lostRound_reachable : Reachable 400 800 lostRound := by
  rw [lostRound_eq]
  exact Reachable.tick spawnDraw (Reachable.after_ticks 400 800 _ Reachable.init)

/-- C6: in every reachable round state a tick never increases the remaining time: it
lowers it by exactly 16 when it is positive and leaves it at 0 when it is 0; and the
remaining time is a multiple of 16 between 0 and 60000, so never negative. -/
theorem timeLeft_steps (SCREEN_WIDTH SCREEN_HEIGHT : ℚ) (s : AppState)
    (hs : Reachable SCREEN_WIDTH SCREEN_HEIGHT s) :
    (∀ d : Draws,
      (gameLoop SCREEN_WIDTH SCREEN_HEIGHT d s).timeLeft ≤ s.timeLeft ∧
      (0 < s.timeLeft →
        (gameLoop SCREEN_WIDTH SCREEN_HEIGHT d s).timeLeft = s.timeLeft - 16) ∧
      (s.timeLeft = 0 → (gameLoop SCREEN_WIDTH SCREEN_HEIGHT d s).timeLeft = 0)) ∧
    0 ≤ s.timeLeft ∧ s.timeLeft ≤ 60000 ∧ ∃ n : ℕ, s.timeLeft = 16 * n := by
  have inv : ∃ n : ℕ, n ≤ 3750 ∧ s.timeLeft = 16 * n := by
    induction hs with
    | init => exact ⟨3750, le_refl _, by norm_num [initialState, GAME_DURATION]⟩
    | tick d _ ih =>
      obtain ⟨n, hn, ht⟩ := ih
      rw [gameLoop_timeLeft, ht]
      cases n with
      | zero => exact ⟨0, by omega, by simp⟩
      | succ m =>
        refine ⟨m, by omega, ?_⟩
        have hm : (0 : ℚ) ≤ m := Nat.cast_nonneg _
        rw [if_neg (by push_cast; linarith)]
        push_cast
        ring
    | @check t _ ih =>
      obtain ⟨n, hn, ht⟩ := ih
      refine ⟨n, hn, ?_⟩
      by_cases hg : t.gameOver = true
      · rw [collisionCheck_of_gameOver SCREEN_HEIGHT t hg]
        exact ht
      · have hg' : t.gameOver = false := by simpa using hg
        rw [(collisionCheck_running SCREEN_HEIGHT t hg').2.2.2.2]
        exact ht
    | touch x _ ih => exact ih
    | reset _ _ => exact ⟨3750, le_refl _, by norm_num [resetGame, GAME_DURATION]⟩
  obtain ⟨n, hn, ht⟩ := inv
  have hn0 : (0 : ℚ) ≤ n := Nat.cast_nonneg _
  have hn1 : (n : ℚ) ≤ 3750 := by exact_mod_cast hn
  refine ⟨fun d => ?_, by linarith, by linarith, n, ht⟩
  rw [gameLoop_timeLeft]
  refine ⟨?_, fun hpos => ?_, fun hz => ?_⟩
  · split <;> linarith
  · rw [if_neg (not_le.mpr hpos)]
  · rw [if_pos (le_of_eq hz)]

/-- The first tick of a round lowers the remaining time from 60000 by 16. -/
theorem timeLeft_steps_witness :
    (gameLoop 400 800 noSpawn (initialState 400)).timeLeft = (initialState 400).timeLeft - 16 ∧
    (initialState 400).timeLeft ≤ 60000 :=
  have h := timeLeft_steps 400 800 (initialState 400) Reachable.init
  ⟨(h.1 noSpawn).2.1 (by norm_num [initialState, GAME_DURATION]), h.2.2.1⟩

/-- C7: in every reachable round state the game-over flag is false exactly when the
message is empty, and when the flag is true the message is 'YOU LOST!!!' or
'YOU WON DUDE!'. -/
theorem gameOver_iff_message (SCREEN_WIDTH SCREEN_HEIGHT : ℚ) (s : AppState)
    (hs : Reachable SCREEN_WIDTH SCREEN_HEIGHT s) :
    (s.gameOver = false ↔ s.message = "") ∧
    (s.gameOver = true → s.message = "YOU LOST!!!" ∨ s.message = "YOU WON DUDE!") := by
  induction hs with
  | init => exact ⟨⟨fun _ => rfl, fun _ => rfl⟩, fun h => by simp [initialState] at h⟩
  | @tick d t _ ih =>
    rw [gameLoop_gameOver, gameLoop_message]
    by_cases h0 : t.timeLeft ≤ 0
    · rw [if_pos h0, if_pos h0]
      exact ⟨⟨fun h => by simp at h, fun h => by simp at h⟩, fun _ => Or.inl rfl⟩
    · rw [if_neg h0, if_neg h0]
      exact ih
  | @check t _ ih =>
    by_cases hg : t.gameOver = true
    · rw [collisionCheck_of_gameOver SCREEN_HEIGHT t hg]
      exact ih
    · have hg' : t.gameOver = false := by simpa using hg
      obtain ⟨hw, hl⟩ := collisionCheck_outcome SCREEN_HEIGHT t hg'
      by_cases hsz : 192 ≤ t.dragonSize
      · obtain ⟨h1, h2⟩ := hw hsz
        rw [h1, h2]
        exact ⟨⟨fun h => by simp at h, fun h => by simp at h⟩, fun _ => Or.inr rfl⟩
      · obtain ⟨h1, h2⟩ := hl (lt_of_not_le hsz)
        rw [h1, h2]
        exact ⟨⟨fun _ => ih.1.mp hg', fun _ => rfl⟩, fun h => by simp at h⟩
  | touch x _ ih => exact ih
  | reset _ _ => exact ⟨⟨fun _ => rfl, fun _ => rfl⟩, fun h => by simp [resetGame] at h⟩

/-- The lost round of `lostRound` has its flag set and the message of a loss. -/
theorem gameOver_iff_message_witness :
    Reachable 400 800 lostRound ∧
    (lostRound.gameOver = false ↔ lostRound.message = "") ∧
    (lostRound.message = "YOU LOST!!!" ∨ lostRound.message = "YOU WON DUDE!") :=
  have h := gameOver_iff_message 400 800 lostRound lostRound_reachable
  ⟨lostRound_reachable, h.1, h.2 rfl⟩

/-- C9: a tick replaces every live egg by the egg with the same x and speed and with
y advanced by that speed, keeps of these the ones whose y is below `SCREEN_HEIGHT`
(in their order), and appends at most the spawned egg; and in every reachable round
state every live egg has `y < SCREEN_HEIGHT`, so no egg at or past the bottom is in
the list a collision check runs over.  The height of the window is taken to be
non-negative. -/
theorem eggs_above_bottom (SCREEN_WIDTH SCREEN_HEIGHT : ℚ) (hH : 0 ≤ SCREEN_HEIGHT) :
    (∀ (d : Draws) (s : AppState),
      (gameLoop SCREEN_WIDTH SCREEN_HEIGHT d s).eggs =
        (s.eggs.map (fun e => ({ x := e.x, y := e.y + e.speed, speed := e.speed } : Egg))).filter
          (fun e => decide (e.y < SCREEN_HEIGHT))
        ++ (if d.spawn < 0.01 then [spawned SCREEN_WIDTH d] else [])) ∧
    (∀ s : AppState, Reachable SCREEN_WIDTH SCREEN_HEIGHT s →
      ∀ e ∈ s.eggs, e.y < SCREEN_HEIGHT) := by
  have step : ∀ (d : Draws) (s : AppState),
      (gameLoop SCREEN_WIDTH SCREEN_HEIGHT d s).eggs =
        (s.eggs.map (fun e => ({ x := e.x, y := e.y + e.speed, speed := e.speed } : Egg))).filter
          (fun e => decide (e.y < SCREEN_HEIGHT))
        ++ (if d.spawn < 0.01 then [spawned SCREEN_WIDTH d] else []) := by
    intro d s
    rw [gameLoop_eggs]
    unfold tickEggs
    have hf : fall = fun e => ({ x := e.x, y := e.y + e.speed, speed := e.speed } : Egg) := rfl
    rw [hf]
    split <;> simp
  refine ⟨step, fun s hs => ?_⟩
  induction hs with
  | init => intro e he; simp [initialState] at he
  | @tick d t _ ih =>
    intro e he
    rw [step, List.mem_append] at he
    rcases he with he | he
    · have := (List.mem_filter.mp he).2
      simpa using this
    · split at he
      · rw [List.mem_singleton] at he
        rw [he]
        show -EGG_SIZE < SCREEN_HEIGHT
        norm_num [EGG_SIZE]
        linarith
      · simp at he
  | @check t _ ih =>
    intro e he
    by_cases hg : t.gameOver = true
    · rw [collisionCheck_of_gameOver SCREEN_HEIGHT t hg] at he
      exact ih e he
    · have hg' : t.gameOver = false := by simpa using hg
      rw [(collisionCheck_running SCREEN_HEIGHT t hg').2.2.1] at he
      exact ih e (List.mem_filter.mp he).1
  | touch x _ ih => exact ih
  | reset _ _ => intro e he; simp [resetGame] at he

/-- The egg of `lostRound`, spawned at `y = -32`, is above the bottom of a window of
height 800. -/
theorem eggs_above_bottom_witness :
    (0 : ℚ) ≤ 800 ∧ Reachable 400 800 lostRound ∧
    ({ x := 184, y := -32, speed := 5 } : Egg).y < 800 :=
  ⟨by norm_num, lostRound_reachable,
    (eggs_above_bottom 400 800 (by norm_num)).2 lostRound lostRound_reachable
      { x := 184, y := -32, speed := 5 } (by simp [lostRound])⟩

end DragonGame
